import Mathlib

/-!
Verification of the Zebra patient label printer (src/src/main.rs).

The Rust program is shallowly embedded below:

* `format_date_ddmmyyyy` models the date-normalization function.  Rust's
  `char::is_numeric` (Unicode general categories Nd, Nl, No) is embedded as
  `rustIsNumeric` via the explicit code-point range table `numericRanges`
  (generated from the Unicode character database, version 14).  Rust string
  indexing `&s[a..b]` works on UTF-8 bytes and panics when a bound is not a
  character boundary; this is modelled by `byteSlice`, and the function
  returns `Except Unit (Option String)` where `.error ()` models a Rust
  panic and `.ok none` models returning `None`.
* the sysfs printer discovery (`detect_printers`, `find_zebra_printer`) is
  embedded over an abstract snapshot `Sysfs` of the relevant filesystem
  reads, one `Option` per fallible OS call, mirroring the code's control
  flow exactly.
* the ZPL renderer `generate_zpl` is embedded as the same string
  concatenations the Rust `format!` templates perform.
* the print loop of `main` is embedded as `runPass` (the inner
  `for _x in 0..number` loop over `print_label` attempts) and `sessionRun`
  (the outer retry `loop`), with the printer device abstracted as an oracle
  `device : Nat → Bool` giving the success of the i-th open+write+flush
  attempt, and operator answers to the retry prompt given as a list.
-/

namespace ZebraLabel

/-- Code-point ranges (inclusive) of the Unicode general categories Nd, Nl
and No, i.e. the characters for which Rust's `char::is_numeric` returns
true.  Generated from the Unicode character database. -/
def numericRanges : List (Nat × Nat) := [
  (48, 57), (178, 179), (185, 185), (188, 190), (1632, 1641), (1776, 1785),
  (1984, 1993), (2406, 2415), (2534, 2543), (2548, 2553), (2662, 2671), (2790, 2799),
  (2918, 2927), (2930, 2935), (3046, 3058), (3174, 3183), (3192, 3198), (3302, 3311),
  (3416, 3422), (3430, 3448), (3558, 3567), (3664, 3673), (3792, 3801), (3872, 3891),
  (4160, 4169), (4240, 4249), (4969, 4988), (5870, 5872), (6112, 6121), (6128, 6137),
  (6160, 6169), (6470, 6479), (6608, 6618), (6784, 6793), (6800, 6809), (6992, 7001),
  (7088, 7097), (7232, 7241), (7248, 7257), (8304, 8304), (8308, 8313), (8320, 8329),
  (8528, 8578), (8581, 8585), (9312, 9371), (9450, 9471), (10102, 10131), (11517, 11517),
  (12295, 12295), (12321, 12329), (12344, 12346), (12690, 12693), (12832, 12841), (12872, 12879),
  (12881, 12895), (12928, 12937), (12977, 12991), (42528, 42537), (42726, 42735), (43056, 43061),
  (43216, 43225), (43264, 43273), (43472, 43481), (43504, 43513), (43600, 43609), (44016, 44025),
  (65296, 65305), (65799, 65843), (65856, 65912), (65930, 65931), (66273, 66299), (66336, 66339),
  (66369, 66369), (66378, 66378), (66513, 66517), (66720, 66729), (67672, 67679), (67705, 67711),
  (67751, 67759), (67835, 67839), (67862, 67867), (68028, 68029), (68032, 68047), (68050, 68095),
  (68160, 68168), (68221, 68222), (68253, 68255), (68331, 68335), (68440, 68447), (68472, 68479),
  (68521, 68527), (68858, 68863), (68912, 68921), (69216, 69246), (69405, 69414), (69457, 69460),
  (69573, 69579), (69714, 69743), (69872, 69881), (69942, 69951), (70096, 70105), (70113, 70132),
  (70384, 70393), (70736, 70745), (70864, 70873), (71248, 71257), (71360, 71369), (71472, 71483),
  (71904, 71922), (72016, 72025), (72784, 72812), (73040, 73049), (73120, 73129), (73664, 73684),
  (74752, 74862), (92768, 92777), (92864, 92873), (93008, 93017), (93019, 93025), (93824, 93846),
  (119520, 119539), (119648, 119672), (120782, 120831), (123200, 123209), (123632, 123641), (124144, 124153),
  (125127, 125135), (125264, 125273), (126065, 126123), (126125, 126127), (126129, 126132), (126209, 126253),
  (126255, 126269), (127232, 127244)
]

/-- Embedding of Rust's `char::is_numeric`: membership of the character's
code point in one of the Nd, Nl, No ranges. -/
def rustIsNumeric (c : Char) : Bool :=
  numericRanges.any (fun r => r.1 ≤ c.toNat && c.toNat ≤ r.2)

/-- Number of bytes of the UTF-8 encoding of a character (Rust
`char::len_utf8`). -/
def utf8Size (c : Char) : Nat :=
  if c.toNat < 0x80 then 1
  else if c.toNat < 0x800 then 2
  else if c.toNat < 0x10000 then 3
  else 4

/-- Byte length of the UTF-8 encoding of a character list (Rust
`str::len`). -/
def utf8Len (l : List Char) : Nat := (l.map utf8Size).sum

/-- Drop the first `n` bytes of a UTF-8 string given as characters.
Yields `none` when `n` is not a character boundary (or past the end),
which in Rust slicing is a panic. -/
def dropBytes : List Char → Nat → Option (List Char)
  | l, 0 => some l
  | [], _ + 1 => none
  | c :: t, n + 1 =>
    if utf8Size c ≤ n + 1 then dropBytes t (n + 1 - utf8Size c) else none

/-- Take the first `n` bytes of a UTF-8 string given as characters.
Yields `none` when `n` is not a character boundary (or past the end),
which in Rust slicing is a panic. -/
def takeBytes : List Char → Nat → Option (List Char)
  | _, 0 => some []
  | [], _ + 1 => none
  | c :: t, n + 1 =>
    if utf8Size c ≤ n + 1 then (takeBytes t (n + 1 - utf8Size c)).map (c :: ·)
    else none

/-- Embedding of the Rust byte slice `&s[a..b]` (for `a ≤ b`): the
characters covering bytes `a` to `b`, or `none` (a panic) when a bound is
not a character boundary or lies outside the string. -/
def byteSlice (l : List Char) (a b : Nat) : Option (List Char) :=
  match dropBytes l a with
  | none => none
  | some t => takeBytes t (b - a)

/-- Decimal value of an ASCII digit character. -/
def digitVal (c : Char) : Nat := c.toNat - 48

/-- Decimal value of a list of ASCII digit characters. -/
def digitsVal (l : List Char) : Nat := l.foldl (fun acc c => 10 * acc + digitVal c) 0

/-- Gregorian leap-year test, as chrono implements it for proleptic
Gregorian years. -/
def isLeapYear (y : Nat) : Bool := y % 4 == 0 && (y % 100 != 0 || y % 400 == 0)

/-- Days in a month of the proleptic Gregorian calendar. -/
def daysInMonth (y m : Nat) : Nat :=
  if m == 2 then (if isLeapYear y then 29 else 28)
  else if m == 4 || m == 6 || m == 9 || m == 11 then 30
  else 31

/-- Validity of a year/month/day triple as a real proleptic-Gregorian
calendar date. -/
def validYMD (y m d : Nat) : Bool :=
  1 ≤ m && m ≤ 12 && 1 ≤ d && d ≤ daysInMonth y m

/-- Embedding of chrono's
`NaiveDate::parse_from_str(&format!("{}-{}-{}", year, month, day), "%Y-%m-%d").is_ok()`
for the year/month/day slices produced by `format_date_ddmmyyyy`: each
slice must consist of ASCII decimal digits and the resulting numbers must
form a real calendar date. -/
def chronoParseYMD (year month day : List Char) : Bool :=
  year.all Char.isDigit && month.all Char.isDigit && day.all Char.isDigit &&
  validYMD (digitsVal year) (digitsVal month) (digitsVal day)

/-- Embedding of `format_date_ddmmyyyy` from src/src/main.rs.  The Rust
function filters the input through `char::is_numeric`, compares the BYTE
length of the result with 8, byte-slices it at 2, 4 and 8, and parses the
rearranged string with chrono.  `.error ()` models the panic that Rust
raises when a slice bound is not a character boundary; `.ok none` models
`None`. -/
def format_date_ddmmyyyy (input : String) : Except Unit (Option String) :=
  let cleaned := input.data.filter rustIsNumeric
  if utf8Len cleaned = 8 then
    match byteSlice cleaned 0 2, byteSlice cleaned 2 4, byteSlice cleaned 4 8 with
    | some day, some month, some year =>
      if chronoParseYMD year month day then
        Except.ok (some (String.mk (day ++ '/' :: month ++ '/' :: year)))
      else Except.ok none
    | _, _, _ => Except.error ()
  else Except.ok none

/-- Embedding of `const ZEBRA_VENDOR_ID: &str = "0a5f"`. -/
def ZEBRA_VENDOR_ID : String := "0a5f"

/-- Embedding of `struct PrinterDevice`. -/
structure PrinterDevice where
  device_path : String
  vendor_id : String
deriving DecidableEq, Repr

/-- Snapshot of the filesystem reads `detect_printers` performs for a
single `/sys/class/usbmisc` directory entry.  Every fallible OS call is
one `Option` field, `none` meaning the call failed:
`deviceLink` is the result of `fs::read_link(entry.path()/device)`,
`canonical` is the result of `fs::canonicalize` on the joined interface
path, and `idVendorRaw` / `idProductRaw` are the raw
`fs::read_to_string` contents of the attribute files under the canonical
directory. -/
structure SysEntry where
  name : String
  deviceLink : Option String
  canonical : Option String
  idVendorRaw : Option String
  idProductRaw : Option String
deriving DecidableEq, Repr

/-- Snapshot of the directory-level filesystem reads of
`detect_printers`: whether `/sys/class/usbmisc` exists, and the entries
`fs::read_dir` yields (`none` when `read_dir` itself fails; the
`.flatten()` in the code already drops per-entry iterator errors, so the
list holds the Ok entries in directory order). -/
structure Sysfs where
  rootExists : Bool
  readDir : Option (List SysEntry)

/-- Code points with the Unicode White_Space property, the set Rust's
`char::is_whitespace` tests. -/
def rustIsWhitespace (c : Char) : Bool :=
  (9 ≤ c.toNat && c.toNat ≤ 13) || c.toNat == 32 || c.toNat == 133 || c.toNat == 160 ||
  c.toNat == 5760 || (8192 ≤ c.toNat && c.toNat ≤ 8202) || c.toNat == 8232 ||
  c.toNat == 8233 || c.toNat == 8239 || c.toNat == 8287 || c.toNat == 12288

/-- Embedding of Rust's `str::trim`: drop whitespace characters from both
ends. -/
def rustTrim (s : String) : String :=
  String.mk (((s.data.dropWhile rustIsWhitespace).reverse.dropWhile rustIsWhitespace).reverse)

/-- Embedding of Rust's `str::starts_with` on string patterns. -/
def rustStartsWith (s p : String) : Bool := p.data.isPrefixOf s.data

/-- Embedding of `read_sysfs_file`: the raw file content with surrounding
whitespace trimmed, or `none` when reading failed. -/
def read_sysfs_file (contents : Option String) : Option String :=
  contents.map (fun s => rustTrim s)

/-- One iteration of the `for entry in entries.flatten()` loop of
`detect_printers`: the candidate the entry contributes, or `none` when
any step skips it (wrong name, broken `device` link, failed
canonicalization, unreadable idVendor or idProduct). -/
def entryCandidate (e : SysEntry) : Option PrinterDevice :=
  if !(rustStartsWith e.name "lp") then none
  else
    match e.deviceLink with
    | none => none
    | some _ =>
      match e.canonical with
      | none => none
      | some _ =>
        match read_sysfs_file e.idVendorRaw, read_sysfs_file e.idProductRaw with
        | some vid, some _pid => some ⟨"/dev/usb/" ++ e.name, vid⟩
        | _, _ => none

/-- Embedding of `detect_printers`. -/
def detect_printers (fs : Sysfs) : List PrinterDevice :=
  if !fs.rootExists then []
  else
    match fs.readDir with
    | none => []
    | some entries => entries.filterMap entryCandidate

/-- Embedding of `find_zebra_printer`. -/
def find_zebra_printer (fs : Sysfs) : Option String :=
  ((detect_printers fs).find? (fun p => p.vendor_id == ZEBRA_VENDOR_ID)).map
    (fun p => p.device_path)

/-- Embedding of `struct Data`. -/
structure Data where
  first_name : String
  last_name : String
  dob : String
  gender : String
  current_datetime : String
  barcode_bool : Bool
  barcode : String
deriving DecidableEq, Repr

/-- Model of Rust's `str::to_uppercase` as used on the operator-typed
name and gender fields; agrees with the Rust function on ASCII input, and
no claim below depends on its behaviour beyond being one fixed function
applied identically in both renderer branches. -/
def to_uppercase (s : String) : String := s.toUpper

/-- Embedding of `generate_zpl`: the two `format!` templates of the
source, written as their underlying string concatenations. -/
def generate_zpl (data : Data) : String :=
  if data.barcode_bool then
    "^XA\n    ^FO40,30^A0N,25,25^FD" ++ to_uppercase data.last_name ++ ", " ++
      to_uppercase data.first_name ++ "^FS\n    ^FO40,55^A0N,25,25^FDDOB: " ++
      data.dob ++ ", " ++ to_uppercase data.gender ++
      "^FS\n    ^FO40,80^A0N,25,25^FDDate: " ++ data.current_datetime ++
      "^FS\n    ^FO40,105^BY3^BCN,70,Y,N,N,A^FD" ++ data.barcode ++
      "^FS\n    ^XZ"
  else
    "^XA\n    ^FO40,30^A0N,25,25^FD" ++ to_uppercase data.last_name ++ ", " ++
      to_uppercase data.first_name ++ "^FS\n    ^FO40,55^A0N,25,25^FDDOB: " ++
      data.dob ++ ", " ++ to_uppercase data.gender ++
      "^FS\n    ^FO40,80^A0N,25,25^FDDate: " ++ data.current_datetime ++
      "^FS\n    ^XZ"

/-- The three text fields shared by both renderer branches (with the
document start marker and the trailing line separator). -/
def commonPart (data : Data) : String :=
  "^XA\n    ^FO40,30^A0N,25,25^FD" ++ to_uppercase data.last_name ++ ", " ++
    to_uppercase data.first_name ++ "^FS\n    ^FO40,55^A0N,25,25^FDDOB: " ++
    data.dob ++ ", " ++ to_uppercase data.gender ++
    "^FS\n    ^FO40,80^A0N,25,25^FDDate: " ++ data.current_datetime ++
    "^FS\n    "

/-- The single barcode field line that the `barcode_bool` branch of
`generate_zpl` adds (with its trailing line separator). -/
def barcodeField (data : Data) : String :=
  "^FO40,105^BY3^BCN,70,Y,N,N,A^FD" ++ data.barcode ++ "^FS\n    "

/-- Embedding of the barcode prompt test in `main`:
`matches!(read_input(...).as_str(), "Y" | "y")`. -/
def barcode_answer_affirmative (s : String) : Bool := s == "Y" || s == "y"

/-- Embedding of the barcode collection in `main`: the field is
initialized to `"0"` and overwritten with the operator's barcode input
only when `barcode_bool` is set. -/
def collect_barcode (bb : Bool) (operatorBarcode : String) : String :=
  if bb then operatorBarcode else "0"

/-- Zero-padded two-digit decimal rendering, as chrono's `%d`, `%m`,
`%H`, `%M` produce for their in-range values. -/
def pad2 (n : Nat) : String :=
  String.mk [Char.ofNat (48 + n / 10 % 10), Char.ofNat (48 + n % 10)]

/-- Zero-padded four-digit decimal rendering, as chrono's `%Y` produces
for years 0 to 9999. -/
def pad4 (n : Nat) : String :=
  String.mk [Char.ofNat (48 + n / 1000 % 10), Char.ofNat (48 + n / 100 % 10),
    Char.ofNat (48 + n / 10 % 10), Char.ofNat (48 + n % 10)]

/-- Embedding of `Local::now().format("%d/%m/%Y, %H:%M").to_string()` in
`main`, as a function of the clock reading at label-construction time.
Note the literal ", " between `%Y` and `%H`: the rendered timestamp has a
space after the comma. -/
def format_current_datetime (day month year hour minute : Nat) : String :=
  pad2 day ++ "/" ++ pad2 month ++ "/" ++ pad4 year ++ ", " ++ pad2 hour ++ ":" ++ pad2 minute

/-- Modelled from the spec: the timestamp pattern `DD/MM/YYYY,HH:MM` as
the spec writes it, with no character between the comma and the hour.
Used only to compare the spec's stated format against the code's. -/
def specTimestampPattern (day month year hour minute : Nat) : String :=
  pad2 day ++ "/" ++ pad2 month ++ "/" ++ pad4 year ++ "," ++ pad2 hour ++ ":" ++ pad2 minute

/-- The local-clock reading captured by `Local::now()` when `main`
constructs the `Data` value. -/
structure Clock where
  day : Nat
  month : Nat
  year : Nat
  hour : Nat
  minute : Nat

/-- Embedding of the `Data` construction in `main` (including the
follow-up barcode read): all operator-typed strings, the clock reading
captured at construction, the answer to the barcode prompt, and the
barcode the operator would type if asked. -/
def build_label (firstName lastName dob gender : String) (now : Clock)
    (barcodeAnswer operatorBarcode : String) : Data :=
  let bb := barcode_answer_affirmative barcodeAnswer
  { first_name := firstName
    last_name := lastName
    dob := dob
    gender := gender
    current_datetime := format_current_datetime now.day now.month now.year now.hour now.minute
    barcode_bool := bb
    barcode := collect_barcode bb operatorBarcode }

/-- Observable state of the print session: how many `print_label` calls
were made, which error messages (each carrying the device path) were
surfaced, and how many times the operator was prompted to retry. -/
structure SessionState where
  attempts : Nat
  errors : List String
  prompts : Nat
deriving DecidableEq, Repr

/-- Result of running the session against a finite list of scripted
operator responses: `done` models the program reaching the end of `main`,
`awaiting` models the session stopping at a retry prompt the script does
not answer. -/
inductive SessionOutcome where
  | done : SessionState → SessionOutcome
  | awaiting : SessionState → SessionOutcome
deriving DecidableEq, Repr

/-- Embedding of the inner `for _x in 0..number` loop of `main`: `device
i` is the success of the i-th `print_label` call of the session (open,
full write and flush all succeeding), `start` the index of the pass's
first attempt, `flag` the value of `unsuccsessful` entering the pass, and
the last argument the number of copies still to print.  Returns the
number of attempts the pass made, the value of `unsuccsessful` after the
pass, and whether an error (with the device path) was surfaced. -/
def runPass (device : Nat → Bool) : Nat → Bool → Nat → Nat × Bool × Bool
  | _, flag, 0 => (0, flag, false)
  | start, _, n + 1 =>
    if device start then
      let r := runPass device (start + 1) false n
      (r.1 + 1, r.2.1, r.2.2)
    else (1, true, true)

/-- Embedding of the outer retry `loop` of `main`: run one pass; if
`unsuccsessful` is set afterwards, prompt the operator and either restart
(on "y", "Y" or "yes") or break; otherwise break.  Responses are the
scripted answers to successive retry prompts. -/
def sessionRun (device : Nat → Bool) (copies : Int) (path : String) :
    Bool → SessionState → List String → SessionOutcome
  | flag, st, responses =>
    let r := runPass device st.attempts flag copies.toNat
    let st' : SessionState :=
      ⟨st.attempts + r.1, st.errors ++ (if r.2.2 then [path] else []), st.prompts⟩
    if r.2.1 then
      match responses with
      | [] => SessionOutcome.awaiting st'
      | resp :: rest =>
        if resp = "y" ∨ resp = "Y" ∨ resp = "yes" then
          sessionRun device copies path true ⟨st'.attempts, st'.errors, st'.prompts + 1⟩ rest
        else SessionOutcome.done ⟨st'.attempts, st'.errors, st'.prompts + 1⟩
    else SessionOutcome.done st'

/-! Helper lemmas. -/

theorem isDigit_bounds {c : Char} (h : c.isDigit = true) : 48 ≤ c.toNat ∧ c.toNat ≤ 57 := by
  unfold Char.isDigit at h
  rw [Bool.and_eq_true, decide_eq_true_eq, decide_eq_true_eq] at h
  exact h

theorem rustIsNumeric_of_isDigit {c : Char} (h : c.isDigit = true) : rustIsNumeric c = true := by
  obtain ⟨h1, h2⟩ := isDigit_bounds h
  unfold rustIsNumeric numericRanges
  rw [List.any_cons, Bool.or_eq_true]
  left
  rw [Bool.and_eq_true, decide_eq_true_eq, decide_eq_true_eq]
  exact ⟨h1, h2⟩

theorem utf8Size_of_isDigit {c : Char} (h : c.isDigit = true) : utf8Size c = 1 := by
  obtain ⟨_, h2⟩ := isDigit_bounds h
  unfold utf8Size
  rw [if_pos]
  omega

theorem utf8Size_of_ascii {c : Char} (h : c.toNat < 128) : utf8Size c = 1 := by
  unfold utf8Size
  rw [if_pos]
  omega

theorem utf8Len_of_ones {l : List Char} (h : ∀ c ∈ l, utf8Size c = 1) :
    utf8Len l = l.length := by
  induction l with
  | nil => rfl
  | cons c t ih =>
    unfold utf8Len at *
    simp only [List.map_cons, List.sum_cons, List.length_cons, h c (List.mem_cons_self c t)]
    rw [ih (fun x hx => h x (List.mem_cons_of_mem c hx))]
    omega

theorem dropBytes_of_ones {l : List Char} (h : ∀ c ∈ l, utf8Size c = 1) :
    ∀ n, n ≤ l.length → dropBytes l n = some (l.drop n) := by
  induction l with
  | nil =>
    intro n hn
    have hn0 : n = 0 := by simpa [Nat.le_zero] using hn
    subst hn0
    rfl
  | cons c t ih =>
    intro n hn
    match n with
    | 0 => rfl
    | n + 1 =>
      have hc : utf8Size c = 1 := h c (List.mem_cons_self c t)
      unfold dropBytes
      rw [if_pos (by omega)]
      rw [hc]
      simp only [Nat.add_sub_cancel]
      exact ih (fun x hx => h x (List.mem_cons_of_mem c hx)) n (by simpa using hn)

theorem takeBytes_of_ones {l : List Char} (h : ∀ c ∈ l, utf8Size c = 1) :
    ∀ n, n ≤ l.length → takeBytes l n = some (l.take n) := by
  induction l with
  | nil =>
    intro n hn
    have hn0 : n = 0 := by simpa [Nat.le_zero] using hn
    subst hn0
    rfl
  | cons c t ih =>
    intro n hn
    match n with
    | 0 => rfl
    | n + 1 =>
      have hc : utf8Size c = 1 := h c (List.mem_cons_self c t)
      unfold takeBytes
      rw [if_pos (by omega)]
      rw [hc]
      simp only [Nat.add_sub_cancel]
      rw [ih (fun x hx => h x (List.mem_cons_of_mem c hx)) n (by simpa using hn)]
      rfl

theorem byteSlice_of_ones {l : List Char} (h : ∀ c ∈ l, utf8Size c = 1) {a b : Nat}
    (hab : a ≤ b) (hb : b ≤ l.length) :
    byteSlice l a b = some ((l.drop a).take (b - a)) := by
  unfold byteSlice
  rw [dropBytes_of_ones h a (le_trans hab hb)]
  exact takeBytes_of_ones (fun x hx => h x (List.mem_of_mem_drop hx)) (b - a)
    (by simp only [List.length_drop]; omega)

theorem find?_append_of_none {α : Type} {p : α → Bool} {l₁ l₂ : List α}
    (h : ∀ x ∈ l₁, p x = false) :
    List.find? p (l₁ ++ l₂) = List.find? p l₂ := by
  induction l₁ with
  | nil => rfl
  | cons a t ih =>
    simp only [List.cons_append, List.find?_cons, h a (List.mem_cons_self a t)]
    exact ih (fun x hx => h x (List.mem_cons_of_mem a hx))

theorem string_append_data (s t : String) : (s ++ t).data = s.data ++ t.data := rfl

/-- Failure semantics of one pass: if the attempts before index `k` of the
pass succeed and attempt `k` fails (with `k` within the requested number
of copies), the pass stops right after attempt `k`, with the failure flag
set and an error surfaced. -/
theorem runPass_fail (device : Nat → Bool) :
    ∀ (k n start : Nat) (flag : Bool), k < n →
      (∀ j, j < k → device (start + j) = true) → device (start + k) = false →
      runPass device start flag n = (k + 1, true, true) := by
  intro k
  induction k with
  | zero =>
    intro n start flag hn h2 h3
    match n, hn with
    | n + 1, _ =>
      unfold runPass
      rw [show start + 0 = start from rfl] at h3
      rw [h3]
      simp
  | succ k ih =>
    intro n start flag hn h2 h3
    match n, hn with
    | n + 1, hn =>
      have hds : device start = true := by
        have := h2 0 (Nat.succ_pos k)
        simpa using this
      have hr := ih n (start + 1) false (by omega)
        (fun j hj => by
          have := h2 (j + 1) (by omega)
          rwa [show start + (j + 1) = start + 1 + j by omega] at this)
        (by rwa [show start + (k + 1) = start + 1 + k by omega] at h3)
      unfold runPass
      rw [hds]
      simp only [if_true, hr]

theorem entryCandidate_some {e : SysEntry} {c : PrinterDevice}
    (h : entryCandidate e = some c) :
    rustStartsWith e.name "lp" = true ∧ c.device_path = "/dev/usb/" ++ e.name
    ∧ e.idVendorRaw.isSome ∧ e.idProductRaw.isSome := by
  unfold entryCandidate at h
  split at h
  · exact absurd h (by simp)
  next hlp =>
    split at h
    · exact absurd h (by simp)
    split at h
    · exact absurd h (by simp)
    split at h
    next vid pid hv hp =>
      refine ⟨by simpa using hlp, ?_, ?_, ?_⟩
      · rw [← Option.some_inj.mp h]
      · cases hvr : e.idVendorRaw with
        | none => rw [hvr] at hv; exact absurd hv (by simp [read_sysfs_file])
        | some _ => rfl
      · cases hpr : e.idProductRaw with
        | none => rw [hpr] at hp; exact absurd hp (by simp [read_sysfs_file])
        | some _ => rfl
    · exact absurd h (by simp)

theorem entryCandidate_none_of_fail {e : SysEntry}
    (h : e.deviceLink = none ∨ e.canonical = none ∨ e.idVendorRaw = none
      ∨ e.idProductRaw = none) :
    entryCandidate e = none := by
  unfold entryCandidate
  split
  · rfl
  rcases h with h | h | h | h
  · rw [h]
  · rw [h]
    split
    · rfl
    · rfl
  · rw [h]
    split
    · rfl
    split
    · rfl
    · simp [read_sysfs_file]
  · rw [h]
    split
    · rfl
    split
    · rfl
    · simp [read_sysfs_file]

theorem entryCandidate_none_of_lp {e : SysEntry} (h : rustStartsWith e.name "lp" = false) :
    entryCandidate e = none := by
  unfold entryCandidate
  rw [if_pos (by simp [h])]

theorem string_ext {s t : String} (h : s.data = t.data) : s = t := by
  cases s
  cases t
  exact congrArg String.mk h

theorem zpl_split_true {d : Data} (hb : d.barcode_bool = true) :
    generate_zpl d = commonPart d ++ (barcodeField d ++ "^XZ") := by
  apply string_ext
  have hsplit1 : ("^FS\n    ^FO40,105^BY3^BCN,70,Y,N,N,A^FD" : String).data
      = ("^FS\n    " : String).data ++ ("^FO40,105^BY3^BCN,70,Y,N,N,A^FD" : String).data := rfl
  have hsplit2 : ("^FS\n    ^XZ" : String).data
      = ("^FS\n    " : String).data ++ ("^XZ" : String).data := rfl
  simp [generate_zpl, hb, commonPart, barcodeField, string_append_data, List.append_assoc,
    hsplit1, hsplit2]

theorem zpl_split_false {d : Data} (hb : d.barcode_bool = false) :
    generate_zpl d = commonPart d ++ "^XZ" := by
  apply string_ext
  have hsplit2 : ("^FS\n    ^XZ" : String).data
      = ("^FS\n    " : String).data ++ ("^XZ" : String).data := rfl
  simp [generate_zpl, hb, commonPart, string_append_data, List.append_assoc, hsplit2]

/-- Reduction of `format_date_ddmmyyyy` on all-ASCII input: the byte
length check coincides with the character count and the three byte slices
are ordinary character slices, so the panic branch is unreachable. -/
theorem format_date_ascii_reduced (s : String) (hascii : ∀ c ∈ s.data, c.toNat < 128) :
    format_date_ddmmyyyy s =
      (if utf8Len (s.data.filter rustIsNumeric) = 8 then
        (if chronoParseYMD ((s.data.filter rustIsNumeric).drop 4)
            (((s.data.filter rustIsNumeric).drop 2).take 2)
            ((s.data.filter rustIsNumeric).take 2) then
          Except.ok (some (String.mk ((s.data.filter rustIsNumeric).take 2 ++
            '/' :: (((s.data.filter rustIsNumeric).drop 2).take 2) ++
            '/' :: (s.data.filter rustIsNumeric).drop 4)))
        else Except.ok none)
      else Except.ok none) := by
  have hl1 : ∀ c ∈ s.data.filter rustIsNumeric, utf8Size c = 1 := fun c hc =>
    utf8Size_of_ascii (hascii c (List.mem_of_mem_filter hc))
  have hlen : utf8Len (s.data.filter rustIsNumeric) = (s.data.filter rustIsNumeric).length :=
    utf8Len_of_ones hl1
  unfold format_date_ddmmyyyy
  by_cases h8 : utf8Len (s.data.filter rustIsNumeric) = 8
  · rw [if_pos h8, if_pos h8]
    have hlen8 : (s.data.filter rustIsNumeric).length = 8 := by omega
    rw [byteSlice_of_ones hl1 (by omega) (by omega)]
    rw [byteSlice_of_ones hl1 (by omega) (by omega)]
    rw [byteSlice_of_ones hl1 (by omega) (by omega)]
    dsimp only
    rw [List.drop_zero]
    rw [List.take_of_length_le (by simp [List.length_drop, hlen8])]
  · rw [if_neg h8, if_neg h8]

/-! Concrete inputs used by the witness theorems. -/

/-- Printer oracle whose second `print_label` attempt fails and all other
attempts succeed. -/
def witnessDevice : Nat → Bool := fun i => decide (i ≠ 1)

/-- A usbmisc entry that resolves to a non-Zebra vendor. -/
def entryLp0 : SysEntry :=
  ⟨"lp0", some "../../../dev0", some "/sys/devices/usb1", some "ffff\n", some "0011\n"⟩

/-- A usbmisc entry that resolves to the Zebra vendor id. -/
def entryLp1 : SysEntry :=
  ⟨"lp1", some "../../../dev1", some "/sys/devices/usb2", some "0a5f\n", some "0049\n"⟩

/-- A usbmisc entry whose `device` symlink is broken. -/
def entryBroken : SysEntry := ⟨"lp9", none, none, none, none⟩

/-- A sysfs snapshot with one non-Zebra and one Zebra entry. -/
def fsW : Sysfs := ⟨true, some [entryLp0, entryLp1]⟩

/-- A sysfs snapshot whose first entry has a broken `device` symlink. -/
def fsBroken : Sysfs := ⟨true, some [entryBroken, entryLp0]⟩

/-- A concrete label. -/
def dW : Data :=
  ⟨"john", "doe", "05/08/1990", "m", "05/08/1990, 14:30", false, "12345"⟩

/-! Claim theorems. -/

/-- Claim C1: in a print pass of `copies` attempts, a failed attempt (the
first failure being at in-pass index `k`) stops the pass right after that
attempt (exactly `k + 1` attempts are made, none after the failure),
records the failure state, and surfaces one error carrying the device
path; afterwards an operator response of exactly "y", "Y" or "yes"
restarts the entire pass from copy 1 with the same document capacity and
device path, and any other response terminates the session. -/
theorem claim_c1 (device : Nat → Bool) (copies : Int) (path : String) (flag : Bool)
    (st : SessionState) (k : Nat) (resp : String) (rest : List String)
    (h1 : k < copies.toNat)
    (h2 : ∀ j, j < k → device (st.attempts + j) = true)
    (h3 : device (st.attempts + k) = false) :
    runPass device st.attempts flag copies.toNat = (k + 1, true, true)
    ∧ sessionRun device copies path flag st (resp :: rest) =
        (if resp = "y" ∨ resp = "Y" ∨ resp = "yes" then
          sessionRun device copies path true
            ⟨st.attempts + (k + 1), st.errors ++ [path], st.prompts + 1⟩ rest
        else SessionOutcome.done ⟨st.attempts + (k + 1), st.errors ++ [path], st.prompts + 1⟩) := by
  have hp := runPass_fail device k copies.toNat st.attempts flag h1 h2 h3
  refine ⟨hp, ?_⟩
  conv_lhs => rw [sessionRun]
  simp only [hp, if_true]

/-- Witness for C1: with three copies requested and the second attempt
failing, the pass stops after two attempts, surfaces the device path, and
the session terminates on the operator response "n". -/
theorem claim_c1_witness :
    runPass witnessDevice 0 false (Int.toNat 3) = (1 + 1, true, true)
    ∧ sessionRun witnessDevice 3 "/dev/usb/lp0" false ⟨0, [], 0⟩ ["n"] =
        (if ("n" : String) = "y" ∨ ("n" : String) = "Y" ∨ ("n" : String) = "yes" then
          sessionRun witnessDevice 3 "/dev/usb/lp0" true
            ⟨0 + (1 + 1), [] ++ ["/dev/usb/lp0"], 0 + 1⟩ []
        else SessionOutcome.done ⟨0 + (1 + 1), [] ++ ["/dev/usb/lp0"], 0 + 1⟩) :=
  claim_c1 witnessDevice 3 "/dev/usb/lp0" false ⟨0, [], 0⟩ 1 "n" []
    (by decide) (by decide) (by decide)

/-- Claim C2: discovery considers only entries whose name begins with
"lp", returns the device-node path `/dev/usb/` ++ name of the first entry
whose resolved vendor identifier equals the vendor filter, and returns
none (it is a total function, never a hard failure) when the root is
absent, the directory read fails, no entry matches the prefix, or no
entry resolves to the filtered vendor. -/
theorem claim_c2 (fs : Sysfs) :
    (fs.rootExists = false → find_zebra_printer fs = none)
    ∧ (fs.readDir = none → find_zebra_printer fs = none)
    ∧ (∀ entries, fs.readDir = some entries →
        (∀ e ∈ entries, rustStartsWith e.name "lp" = false) → find_zebra_printer fs = none)
    ∧ (∀ entries, fs.readDir = some entries →
        (∀ e ∈ entries, ∀ c, entryCandidate e = some c → c.vendor_id ≠ ZEBRA_VENDOR_ID) →
        find_zebra_printer fs = none)
    ∧ (∀ e c, entryCandidate e = some c →
        rustStartsWith e.name "lp" = true ∧ c.device_path = "/dev/usb/" ++ e.name)
    ∧ (∀ pre e post c, fs.rootExists = true → fs.readDir = some (pre ++ e :: post) →
        (∀ e' ∈ pre, ∀ c', entryCandidate e' = some c' → c'.vendor_id ≠ ZEBRA_VENDOR_ID) →
        entryCandidate e = some c → c.vendor_id = ZEBRA_VENDOR_ID →
        find_zebra_printer fs = some ("/dev/usb/" ++ e.name)) := by
  refine ⟨?_, ?_, ?_, ?_, ?_, ?_⟩
  · intro h
    unfold find_zebra_printer detect_printers
    rw [h]
    rfl
  · intro h
    unfold find_zebra_printer detect_printers
    rw [h]
    split <;> rfl
  · intro entries hdir hpre
    unfold find_zebra_printer detect_printers
    rw [hdir]
    split
    · rfl
    · dsimp only
      rw [show entries.filterMap entryCandidate = [] by
        rw [List.filterMap_eq_nil_iff]
        intro e he
        apply entryCandidate_none_of_lp
        exact hpre e he]
      rfl
  · intro entries hdir hno
    unfold find_zebra_printer detect_printers
    rw [hdir]
    split
    · rfl
    · dsimp only
      rw [List.find?_eq_none.mpr]
      · rfl
      · intro p hp
        rw [List.mem_filterMap] at hp
        obtain ⟨e, he, hce⟩ := hp
        simp only [beq_iff_eq]
        exact fun hveq => hno e he p hce hveq
  · intro e c h
    obtain ⟨h1, h2, _, _⟩ := entryCandidate_some h
    exact ⟨h1, h2⟩
  · intro pre e post c hroot hdir hpre hce hvid
    unfold find_zebra_printer detect_printers
    rw [hdir, hroot]
    simp only [Bool.not_true, Bool.false_eq_true, if_false]
    rw [List.filterMap_append]
    rw [find?_append_of_none]
    · rw [show (e :: post).filterMap entryCandidate = c :: post.filterMap entryCandidate by
        simp [List.filterMap_cons, hce]]
      rw [List.find?_cons_of_pos]
      · obtain ⟨_, hpath, _, _⟩ := entryCandidate_some hce
        simp [hpath]
      · simp [hvid]
    · intro x hx
      rw [List.mem_filterMap] at hx
      obtain ⟨e', he', hce'⟩ := hx
      simp only [beq_eq_false_iff_ne, ne_eq]
      exact hpre e' he' x hce'

/-- Witness for C2: on a snapshot whose first entry resolves to vendor
"ffff" and whose second resolves to "0a5f", the locator returns the
device-node path of the second entry. -/
theorem claim_c2_witness : find_zebra_printer fsW = some ("/dev/usb/" ++ "lp1") :=
  (claim_c2 fsW).2.2.2.2.2 [entryLp0] entryLp1 [] ⟨"/dev/usb/lp1", "0a5f"⟩
    rfl rfl
    (by
      intro e' he' c' hc'
      simp only [List.mem_singleton] at he'
      subst he'
      rw [show entryCandidate entryLp0 = some ⟨"/dev/usb/lp0", "ffff"⟩ by decide] at hc'
      have hc'' := Option.some_inj.mp hc'
      rw [← hc'']
      decide)
    (by decide) rfl

/-- Claim C3: for all-digit 8-character input representing a valid
Gregorian date in DD-MM-YYYY order, normalization succeeds and returns
the string DD/MM/YYYY; normalization of "29021900" returns the rejection
value (1900 is not a leap year) and normalization of "29022000" succeeds
with "29/02/2000". -/
theorem claim_c3 (d1 d2 m1 m2 y1 y2 y3 y4 : Char)
    (hd1 : d1.isDigit = true) (hd2 : d2.isDigit = true)
    (hm1 : m1.isDigit = true) (hm2 : m2.isDigit = true)
    (hy1 : y1.isDigit = true) (hy2 : y2.isDigit = true)
    (hy3 : y3.isDigit = true) (hy4 : y4.isDigit = true)
    (hv : validYMD (digitsVal [y1, y2, y3, y4]) (digitsVal [m1, m2])
      (digitsVal [d1, d2]) = true) :
    format_date_ddmmyyyy (String.mk [d1, d2, m1, m2, y1, y2, y3, y4])
      = Except.ok (some (String.mk [d1, d2, '/', m1, m2, '/', y1, y2, y3, y4]))
    ∧ format_date_ddmmyyyy "29021900" = Except.ok none
    ∧ format_date_ddmmyyyy "29022000" = Except.ok (some "29/02/2000") := by
  refine ⟨?_, by rfl, by rfl⟩
  have hnum : ∀ c : Char, c.isDigit = true → rustIsNumeric c = true := fun c h =>
    rustIsNumeric_of_isDigit h
  unfold format_date_ddmmyyyy
  simp only [String.mk]
  rw [List.filter_cons_of_pos (hnum _ hd1), List.filter_cons_of_pos (hnum _ hd2),
      List.filter_cons_of_pos (hnum _ hm1), List.filter_cons_of_pos (hnum _ hm2),
      List.filter_cons_of_pos (hnum _ hy1), List.filter_cons_of_pos (hnum _ hy2),
      List.filter_cons_of_pos (hnum _ hy3), List.filter_cons_of_pos (hnum _ hy4),
      List.filter_nil]
  rw [show utf8Len [d1, d2, m1, m2, y1, y2, y3, y4] = 8 by
    unfold utf8Len
    simp [utf8Size_of_isDigit hd1, utf8Size_of_isDigit hd2, utf8Size_of_isDigit hm1,
      utf8Size_of_isDigit hm2, utf8Size_of_isDigit hy1, utf8Size_of_isDigit hy2,
      utf8Size_of_isDigit hy3, utf8Size_of_isDigit hy4]]
  rw [if_pos rfl]
  have e1 : utf8Size d1 = 1 := utf8Size_of_isDigit hd1
  have e2 : utf8Size d2 = 1 := utf8Size_of_isDigit hd2
  have e3 : utf8Size m1 = 1 := utf8Size_of_isDigit hm1
  have e4 : utf8Size m2 = 1 := utf8Size_of_isDigit hm2
  have e5 : utf8Size y1 = 1 := utf8Size_of_isDigit hy1
  have e6 : utf8Size y2 = 1 := utf8Size_of_isDigit hy2
  have e7 : utf8Size y3 = 1 := utf8Size_of_isDigit hy3
  have e8 : utf8Size y4 = 1 := utf8Size_of_isDigit hy4
  rw [show byteSlice [d1, d2, m1, m2, y1, y2, y3, y4] 0 2 = some [d1, d2] by
        simp [byteSlice, dropBytes, takeBytes, e1, e2]]
  rw [show byteSlice [d1, d2, m1, m2, y1, y2, y3, y4] 2 4 = some [m1, m2] by
        simp [byteSlice, dropBytes, takeBytes, e1, e2, e3, e4]]
  rw [show byteSlice [d1, d2, m1, m2, y1, y2, y3, y4] 4 8 = some [y1, y2, y3, y4] by
        simp [byteSlice, dropBytes, takeBytes, e1, e2, e3, e4, e5, e6, e7, e8]]
  dsimp only
  rw [show chronoParseYMD [y1, y2, y3, y4] [m1, m2] [d1, d2] = true by
        unfold chronoParseYMD
        simp [hd1, hd2, hm1, hm2, hy1, hy2, hy3, hy4, hv]]
  rfl

/-- Witness for C3: the valid date "05081990" normalizes to
"05/08/1990", and the two concrete examples behave as claimed. -/
theorem claim_c3_witness :
    format_date_ddmmyyyy (String.mk ['0', '5', '0', '8', '1', '9', '9', '0'])
      = Except.ok (some (String.mk ['0', '5', '/', '0', '8', '/', '1', '9', '9', '0']))
    ∧ format_date_ddmmyyyy "29021900" = Except.ok none
    ∧ format_date_ddmmyyyy "29022000" = Except.ok (some "29/02/2000") :=
  claim_c3 '0' '5' '0' '8' '1' '9' '9' '0'
    (by decide) (by decide) (by decide) (by decide) (by decide) (by decide) (by decide)
    (by decide) (by decide)

/-- Claim C4: a per-entry resolution failure (broken device symlink,
failed canonicalization, or unreadable idVendor or idProduct file) makes
that entry contribute nothing, leaves the rest of the scan unchanged
(discovery equals discovery with the entry removed, so the scan never
aborts), and an entry contributes a candidate only when both idVendor and
idProduct were read successfully. -/
theorem claim_c4 (fs : Sysfs) (pre post : List SysEntry) (e : SysEntry)
    (hdir : fs.readDir = some (pre ++ e :: post))
    (hfail : e.deviceLink = none ∨ e.canonical = none ∨ e.idVendorRaw = none
      ∨ e.idProductRaw = none) :
    entryCandidate e = none
    ∧ detect_printers fs = detect_printers ⟨fs.rootExists, some (pre ++ post)⟩
    ∧ (∀ e' c, entryCandidate e' = some c → e'.idVendorRaw.isSome ∧ e'.idProductRaw.isSome) := by
  have hnone : entryCandidate e = none := entryCandidate_none_of_fail hfail
  refine ⟨hnone, ?_, ?_⟩
  · unfold detect_printers
    rw [hdir]
    split
    · rfl
    · dsimp only
      rw [List.filterMap_append, List.filterMap_append, List.filterMap_cons, hnone]
  · intro e' c h
    obtain ⟨_, _, hv, hp⟩ := entryCandidate_some h
    exact ⟨hv, hp⟩

/-- Witness for C4: a first entry with a broken device symlink is
skipped, discovery proceeds to the remaining entry, and a successfully
resolved entry indeed has both attribute files readable. -/
theorem claim_c4_witness :
    entryCandidate entryBroken = none
    ∧ detect_printers fsBroken = detect_printers ⟨true, some [entryLp0]⟩
    ∧ (entryLp1.idVendorRaw.isSome ∧ entryLp1.idProductRaw.isSome) :=
  have h := claim_c4 fsBroken [] [entryLp0] entryBroken rfl (Or.inl rfl)
  ⟨h.1, h.2.1, h.2.2 entryLp1 ⟨"/dev/usb/lp1", "0a5f"⟩ (by decide)⟩

/-- Claim C5: rendering is a pure deterministic function of the label
data (field-wise identical data yields byte-identical documents), and
relative to the barcode-disabled document the barcode-enabled document
consists of the same fields in the same positions plus exactly the one
additional barcode field before the end marker. -/
theorem claim_c5 (d : Data) :
    (∀ d' : Data, d.first_name = d'.first_name → d.last_name = d'.last_name →
      d.dob = d'.dob → d.gender = d'.gender → d.current_datetime = d'.current_datetime →
      d.barcode_bool = d'.barcode_bool → d.barcode = d'.barcode →
      generate_zpl d = generate_zpl d')
    ∧ generate_zpl {d with barcode_bool := false} = commonPart d ++ "^XZ"
    ∧ generate_zpl {d with barcode_bool := true}
        = commonPart d ++ (barcodeField d ++ "^XZ") := by
  refine ⟨?_, ?_, ?_⟩
  · intro d' h1 h2 h3 h4 h5 h6 h7
    have hd : d = d' := by
      cases d
      cases d'
      simp_all
    rw [hd]
  · exact zpl_split_false rfl
  · exact zpl_split_true rfl

/-- Witness for C5 at a concrete label value. -/
theorem claim_c5_witness :
    generate_zpl dW = generate_zpl dW
    ∧ generate_zpl {dW with barcode_bool := false} = commonPart dW ++ "^XZ"
    ∧ generate_zpl {dW with barcode_bool := true}
        = commonPart dW ++ (barcodeField dW ++ "^XZ") :=
  ⟨(claim_c5 dW).1 dW rfl rfl rfl rfl rfl rfl rfl, (claim_c5 dW).2.1, (claim_c5 dW).2.2⟩

/-- Claim C6, counterexample: on the input "००½" (two Devanagari digits,
three UTF-8 bytes each, then the one-half sign, two bytes), every
character is Unicode-numeric, so the cleaned string has byte length 8,
and the slice at byte 2 falls inside the first character: the code
panics instead of rejecting the input. -/
theorem claim_c6_counterexample : format_date_ddmmyyyy "००½" = Except.error () := by rfl

/-- Claim C6 as amended: for every input string consisting of ASCII
characters, date normalization totally computes a rejection or a success
and never reaches the panic branch: a cleaned byte length other than 8
yields the rejection value, and so does a calendar-invalid 8-digit
string. -/
theorem claim_c6 (s : String) (hascii : ∀ c ∈ s.data, c.toNat < 128) :
    (∃ o, format_date_ddmmyyyy s = Except.ok o)
    ∧ (utf8Len (s.data.filter rustIsNumeric) ≠ 8 → format_date_ddmmyyyy s = Except.ok none)
    ∧ (∀ l, s.data.filter rustIsNumeric = l → utf8Len l = 8 →
        chronoParseYMD (l.drop 4) ((l.drop 2).take 2) (l.take 2) = false →
        format_date_ddmmyyyy s = Except.ok none) := by
  have key := format_date_ascii_reduced s hascii
  refine ⟨?_, ?_, ?_⟩
  · rw [key]
    by_cases h8 : utf8Len (s.data.filter rustIsNumeric) = 8
    · rw [if_pos h8]
      by_cases hp : chronoParseYMD ((s.data.filter rustIsNumeric).drop 4)
          (((s.data.filter rustIsNumeric).drop 2).take 2)
          ((s.data.filter rustIsNumeric).take 2) = true
      · rw [if_pos hp]
        exact ⟨_, rfl⟩
      · rw [if_neg hp]
        exact ⟨none, rfl⟩
    · rw [if_neg h8]
      exact ⟨none, rfl⟩
  · intro h8
    rw [key, if_neg h8]
  · intro l hl h8 hp
    subst hl
    rw [key, if_pos h8, if_neg (by rw [hp]; exact Bool.false_ne_true)]

/-- Witness for C6 at the malformed ASCII input "1302". -/
theorem claim_c6_witness :
    (∃ o, format_date_ddmmyyyy "1302" = Except.ok o)
    ∧ format_date_ddmmyyyy "1302" = Except.ok none :=
  have h := claim_c6 "1302" (by decide)
  ⟨h.1, h.2.1 (by decide)⟩

/-- Claim C7, counterexample: the operator response "yes" to the barcode
prompt is NOT treated as affirmative by the code (only "Y" and "y"
are). -/
theorem claim_c7_counterexample : barcode_answer_affirmative "yes" = false := by rfl

/-- Claim C7 as amended: exactly the strings "y" and "Y" are affirmative
answers to the barcode prompt ("yes" is not), and the resulting boolean
alone determines both whether the operator's barcode value is collected
(otherwise the sentinel "0" is stored) and whether the rendered document
contains the barcode field. -/
theorem claim_c7 (s i : String) (d : Data) :
    (barcode_answer_affirmative s = true ↔ (s = "Y" ∨ s = "y"))
    ∧ collect_barcode true i = i
    ∧ collect_barcode false i = "0"
    ∧ generate_zpl d = commonPart d ++
        (if d.barcode_bool then barcodeField d ++ "^XZ" else "^XZ") := by
  refine ⟨?_, rfl, rfl, ?_⟩
  · unfold barcode_answer_affirmative
    rw [Bool.or_eq_true, beq_iff_eq, beq_iff_eq]
  · cases hb : d.barcode_bool
    · rw [if_neg (by simp)]
      exact zpl_split_false hb
    · rw [if_pos rfl]
      exact zpl_split_true hb

/-- Witness for C7 at concrete inputs. -/
theorem claim_c7_witness :
    barcode_answer_affirmative "Y" = true
    ∧ collect_barcode true "12345" = "12345"
    ∧ collect_barcode false "12345" = "0"
    ∧ generate_zpl dW = commonPart dW ++
        (if dW.barcode_bool then barcodeField dW ++ "^XZ" else "^XZ") :=
  have h := claim_c7 "Y" "12345" dW
  ⟨h.1.mpr (Or.inl rfl), h.2.1, h.2.2.1, h.2.2.2⟩

/-- Claim C8, counterexample: the stored timestamp for the clock reading
5/8/1990 14:30 is "05/08/1990, 14:30", which differs from the pattern
"DD/MM/YYYY,HH:MM" stated by the claim (the code's chrono format string
"%d/%m/%Y, %H:%M" has a space after the comma). -/
theorem claim_c8_counterexample :
    (build_label "a" "b" "c" "d" ⟨5, 8, 1990, 14, 30⟩ "N" "x").current_datetime
      = "05/08/1990, 14:30"
    ∧ specTimestampPattern 5 8 1990 14 30 = "05/08/1990,14:30"
    ∧ ("05/08/1990, 14:30" : String) ≠ "05/08/1990,14:30" :=
  ⟨by rfl, by rfl, by decide⟩

/-- Claim C8 as amended: the timestamp stored in the label is the
clock reading captured at label construction rendered as
DD/MM/YYYY, HH:MM (comma followed by one space, 17 characters in all,
with the comma at index 10 and the space at index 11), and it is
independent of every operator input. -/
theorem claim_c8 (f l dob g a ob f2 l2 dob2 g2 a2 ob2 : String) (now : Clock) :
    (build_label f l dob g now a ob).current_datetime
        = format_current_datetime now.day now.month now.year now.hour now.minute
    ∧ (build_label f l dob g now a ob).current_datetime
        = (build_label f2 l2 dob2 g2 now a2 ob2).current_datetime
    ∧ (format_current_datetime now.day now.month now.year now.hour now.minute).length = 17
    ∧ (format_current_datetime now.day now.month now.year now.hour now.minute).data.get? 10
        = some ','
    ∧ (format_current_datetime now.day now.month now.year now.hour now.minute).data.get? 11
        = some ' ' := by
  have hdata : (format_current_datetime now.day now.month now.year now.hour
      now.minute).data =
      [Char.ofNat (48 + now.day / 10 % 10), Char.ofNat (48 + now.day % 10), '/',
       Char.ofNat (48 + now.month / 10 % 10), Char.ofNat (48 + now.month % 10), '/',
       Char.ofNat (48 + now.year / 1000 % 10), Char.ofNat (48 + now.year / 100 % 10),
       Char.ofNat (48 + now.year / 10 % 10), Char.ofNat (48 + now.year % 10), ',', ' ',
       Char.ofNat (48 + now.hour / 10 % 10), Char.ofNat (48 + now.hour % 10), ':',
       Char.ofNat (48 + now.minute / 10 % 10), Char.ofNat (48 + now.minute % 10)] := rfl
  refine ⟨rfl, rfl, ?_, ?_, ?_⟩
  · rw [show (format_current_datetime now.day now.month now.year now.hour
        now.minute).length = (format_current_datetime now.day now.month now.year
        now.hour now.minute).data.length from rfl, hdata]
    rfl
  · rw [hdata]
    rfl
  · rw [hdata]
    rfl

/-- Claim C9: normalizing an input string whose numeric characters are
decimal digits gives the same result as normalizing the string with all
non-digit characters removed; in particular "05/08/1990" and "05081990"
both normalize to "05/08/1990". -/
theorem claim_c9 (s : String)
    (h : ∀ c ∈ s.data, rustIsNumeric c = true → c.isDigit = true) :
    format_date_ddmmyyyy s
      = format_date_ddmmyyyy (String.mk (s.data.filter (fun c => c.isDigit)))
    ∧ format_date_ddmmyyyy "05/08/1990" = Except.ok (some "05/08/1990")
    ∧ format_date_ddmmyyyy "05081990" = Except.ok (some "05/08/1990") := by
  refine ⟨?_, by rfl, by rfl⟩
  have key : (s.data.filter (fun c => c.isDigit)).filter rustIsNumeric
      = s.data.filter rustIsNumeric := by
    rw [List.filter_filter]
    exact List.filter_congr (fun a ha => by
      cases hr : rustIsNumeric a
      · simp [hr]
      · simp [hr, h a ha hr])
  unfold format_date_ddmmyyyy
  rw [show (String.mk (s.data.filter (fun c => c.isDigit))).data
    = s.data.filter (fun c => c.isDigit) from rfl, key]

/-- Witness for C9 at the input "05/08/1990". -/
theorem claim_c9_witness :
    format_date_ddmmyyyy "05/08/1990"
      = format_date_ddmmyyyy (String.mk ("05/08/1990".data.filter (fun c => c.isDigit)))
    ∧ format_date_ddmmyyyy "05/08/1990" = Except.ok (some "05/08/1990")
    ∧ format_date_ddmmyyyy "05081990" = Except.ok (some "05/08/1990") :=
  claim_c9 "05/08/1990" (by decide)

/-- Claim C10: when the parsed number of copies is zero or negative, the
session makes zero print attempts, surfaces no error, never prompts the
operator to retry, and terminates immediately as a success. -/
theorem claim_c10 (device : Nat → Bool) (copies : Int) (path : String)
    (responses : List String) (h : copies ≤ 0) :
    sessionRun device copies path false ⟨0, [], 0⟩ responses =
      SessionOutcome.done ⟨0, [], 0⟩ := by
  have h0 : copies.toNat = 0 := Int.toNat_of_nonpos h
  rw [sessionRun.eq_def]
  simp [h0, runPass]

/-- Witness for C10 with copies = -2. -/
theorem claim_c10_witness :
    sessionRun witnessDevice (-2) "/dev/usb/lp0" false ⟨0, [], 0⟩ ["y"] =
      SessionOutcome.done ⟨0, [], 0⟩ :=
  claim_c10 witnessDevice (-2) "/dev/usb/lp0" ["y"] (by decide)

end ZebraLabel
